import Mathlib

/-!
Shallow embedding of the Checkmk check plugins of `cmk_plugin_ms_intune`
(directory `intune/agent_based/`), together with theorems settling the
specification claims about them.

Conventions of the embedding:
* Python `int` fields become `Int`; Python floats in the threshold math
  become `Rat` (the code performs only field arithmetic and comparisons);
* a Python `dict` becomes an insertion-ordered association list where
  inserting an existing key overwrites it in place (`dictInsert`), exactly
  the observable behaviour of a Python `dict`;
* a check function "yields" by returning a `List CheckOut`; a Python
  exception becomes `Except PyErr`;
* `datetime.fromisoformat(s).timestamp()` is modelled by an explicit
  function parameter `fromiso : String → Rat` (ISO-8601 text parsing is
  done by the Python standard library, outside this repository), and
  `datetime.now().timestamp()` by a parameter `now : Rat`;
* the cmk framework helpers `render.percent`, `render.timespan`,
  `render.datetime` and `check_levels` (imports from `cmk.agent_based.v2`)
  are modelled by `renderPercent`, `renderTimespan`, `renderDatetime` and
  `checkLevelsLower`; the human formatting of the render helpers is
  abstracted to `toString`, their call structure is kept.
-/

namespace MsIntune

/-- Checkmk service state, `cmk.agent_based.v2.State`. -/
inductive CmkState where
  | OK
  | WARN
  | CRIT
deriving DecidableEq, Repr

/-- One `Metric(...)` yielded by a check: name, numeric value and the
optional `(warn, crit)` levels attached to it. -/
structure MetricOut where
  name : String
  value : Rat
  levels : Option (Rat × Rat)
deriving DecidableEq, Repr

/-- One element yielded by a check function: a `Result(...)` (state,
summary line, details block) or a `Metric(...)`. -/
inductive CheckOut where
  | result (state : CmkState) (summary : String) (details : String)
  | metric (m : MetricOut)
deriving DecidableEq, Repr

/-- Python exceptions that the embedded checks can raise. -/
inductive PyErr where
  | zeroDivisionError
  | typeErrorNoneSubscript
deriving DecidableEq, Repr

/-- Insertion into a Python `dict` modelled as an insertion-ordered
association list: an existing key is overwritten in place, a new key is
appended. -/
def dictInsert {A : Type} : List (String × A) → String → A → List (String × A)
  | [], k, v => [(k, v)]
  | (k0, v0) :: rest, k, v =>
      if k0 = k then (k0, v) :: rest else (k0, v0) :: dictInsert rest k v

/-- `d.get(k)` on a Python `dict` (first — and only — binding of `k`). -/
def dictGet {A : Type} : List (String × A) → String → Option A
  | [], _ => none
  | (k0, v0) :: rest, k => if k0 = k then some v0 else dictGet rest k

/-- Python `s[-4:]`: the last (at most) 4 characters of a string. -/
def pyLast4 (s : String) : String :=
  String.mk (s.data.drop (s.data.length - 4))

/-- Python `round(x, 2)` on the exact value: round to the nearest multiple
of 1/100, ties to even (banker's rounding). -/
def roundHalfEven (q : Rat) : Int :=
  let f : Int := ⌊q⌋
  let r : Rat := q - (f : Rat)
  if r < 1/2 then f
  else if 1/2 < r then f + 1
  else if f % 2 = 0 then f else f + 1

/-- `round(x, 2)` of Python, on rationals. -/
def round2 (q : Rat) : Rat :=
  (roundHalfEven (q * 100) : Rat) / 100

/-- Model of `cmk.agent_based.v2.render.percent` (human formatting
abstracted). -/
def renderPercent (q : Rat) : String := toString q ++ "%"

/-- Model of `cmk.agent_based.v2.render.timespan` (human formatting
abstracted). -/
def renderTimespan (q : Rat) : String := toString q

/-- Model of `cmk.agent_based.v2.render.datetime` (human formatting
abstracted). -/
def renderDatetime (q : Rat) : String := toString q

/-- The `(warning, critical)` payload of a cmk `SimpleLevels` value:
the Python value is a pair `(mode, levels)` such as `("fixed", (w, c))`
or `("no_levels", None)`. -/
abbrev LevelsSpec := String × Option (Rat × Rat)

/-- The state computed by `cmk.agent_based.v2.check_levels` for
`levels_lower`: CRIT when the value is below the critical level, WARN when
below the warning level, OK otherwise (or when no levels are set). -/
def levelsLowerState (value : Rat) : Option LevelsSpec → CmkState
  | some (_, some (w, c)) =>
      if value < c then .CRIT else if value < w then .WARN else .OK
  | _ => .OK

/-- The summary produced by `check_levels`: `label: rendered` plus the
threshold annotation when the state is not OK. -/
def levelsLowerSummary (value : Rat) (levels : Option LevelsSpec)
    (label : String) (rendered : String) : String :=
  match levels with
  | some (_, some (w, c)) =>
      if value < w then
        label ++ ": " ++ rendered ++ " (warn/crit below " ++ renderTimespan w
          ++ "/" ++ renderTimespan c ++ ")"
      else label ++ ": " ++ rendered
  | _ => label ++ ": " ++ rendered

/-- Model of `cmk.agent_based.v2.check_levels(value, levels_lower=...,
metric_name=..., label=..., render_func=...)`: yields one `Result` and,
when a metric name is given, one `Metric` carrying the value. -/
def checkLevelsLower (value : Rat) (levels : Option LevelsSpec)
    (metricName : Option String) (label : String) (rendered : String) :
    List CheckOut :=
  CheckOut.result (levelsLowerState value levels)
      (levelsLowerSummary value levels label rendered) ""
    :: (match metricName with
        | some n => [CheckOut.metric ⟨n, value, none⟩]
        | none => [])

/-! ## `intune/agent_based/ms_intune_app_licenses.py` -/

/-- The `IntuneApp` dataclass. -/
structure IntuneApp where
  app_type : String
  app_name : String
  app_publisher : String
  app_license_total : Int
  app_license_consumed : Int
  app_assigned : Bool
deriving DecidableEq, Repr

/-- The check parameters of `ms_intune_app_licenses`:
`params["lic_unit_available_lower"]` is a pair
`(mode, (levels_mode, levels))` with mode `"lic_unit_available_lower_pct"`
or `"lic_unit_available_lower_abs"`, and `params["lic_total_min"]` an
integer. -/
structure AppParams where
  lic_unit_available_lower : String × LevelsSpec
  lic_total_min : Int
deriving DecidableEq, Repr

/-- `parse_ms_intune_app_licenses`: keys each record by
`f"{item['app_name']} - {item['app_type']}"`; no collision handling
(JSON decoding of the agent payload happens before this model). -/
def parse_ms_intune_app_licenses (items : List IntuneApp) :
    List (String × IntuneApp) :=
  items.foldl
    (fun parsed item =>
      dictInsert parsed (item.app_name ++ " - " ++ item.app_type) item)
    []

/-- `check_ms_intune_app_licenses`. -/
def check_ms_intune_app_licenses (item : String) (params : AppParams)
    (sect : List (String × IntuneApp)) : Except PyErr (List CheckOut) :=
  match dictGet sect item with
  | none => .ok []
  | some license =>
    if license.app_license_total = 0 then
      .error .zeroDivisionError
    else
      let app_license_consumed_pct : Rat :=
        round2 ((license.app_license_consumed : Rat)
          / (license.app_license_total : Rat) * 100)
      let lic_units_available : Int :=
        license.app_license_total - license.app_license_consumed
      let stage0 : String × CmkState × Option (Rat × Rat) × Option (Rat × Rat) :=
        ("", .OK, none, none)
      let stage :=
        if license.app_license_total ≥ params.lic_total_min then
          match (params.lic_unit_available_lower).2.2 with
          | none => stage0
          | some (warning_level, critical_level) =>
            if (params.lic_unit_available_lower).1
                = "lic_unit_available_lower_pct" then
              let levels_consumed_pct : Option (Rat × Rat) :=
                some (100 - warning_level, 100 - critical_level)
              let available_percent : Rat :=
                (lic_units_available : Rat)
                  / (license.app_license_total : Rat) * 100
              let st : CmkState :=
                if available_percent < critical_level then .CRIT
                else if available_percent < warning_level then .WARN
                else .OK
              (" (warn/crit below " ++ renderPercent warning_level ++ "/"
                  ++ renderPercent critical_level ++ " available)",
                st, none, levels_consumed_pct)
            else
              let levels_consumed_abs : Rat × Rat :=
                ((license.app_license_total : Rat) - warning_level,
                 (license.app_license_total : Rat) - critical_level)
              let st : CmkState :=
                if (license.app_license_consumed : Rat)
                    > levels_consumed_abs.2 then .CRIT
                else if (license.app_license_consumed : Rat)
                    > levels_consumed_abs.1 then .WARN
                else .OK
              (" (warn/crit below " ++ toString warning_level ++ "/"
                  ++ toString critical_level ++ " available)",
                st, some levels_consumed_abs, none)
        else stage0
      let result_summary :=
        "Consumed: " ++ renderPercent app_license_consumed_pct ++ " - "
          ++ toString license.app_license_consumed ++ " of "
          ++ toString license.app_license_total
          ++ ", Available: " ++ toString lic_units_available
          ++ stage.1
      let result_details :=
        "Name: " ++ license.app_name
          ++ "\nPublisher: " ++ license.app_publisher
          ++ "\nType: " ++ license.app_type
          ++ "\nTotal: " ++ toString license.app_license_total
          ++ "\nUsed: " ++ toString license.app_license_consumed
          ++ "\nIs assigned: " ++ (if license.app_assigned then "yes" else "no")
      .ok
        [CheckOut.result stage.2.1 result_summary result_details,
         CheckOut.metric ⟨"ms_intune_app_licenses_total",
           (license.app_license_total : Rat), none⟩,
         CheckOut.metric ⟨"ms_intune_app_licenses_consumed",
           (license.app_license_consumed : Rat), stage.2.2.1⟩,
         CheckOut.metric ⟨"ms_intune_app_licenses_consumed_pct",
           app_license_consumed_pct, stage.2.2.2⟩,
         CheckOut.metric ⟨"ms_intune_app_licenses_available",
           (lic_units_available : Rat), none⟩]

/-! ## `intune/agent_based/ms_intune_apple_ade_tokens.py` -/

/-- The `AdeToken` dataclass. `token_expiration` is the raw ISO-8601
string; the checks parse it with `datetime.fromisoformat`. -/
structure AdeToken where
  token_appleid : String
  token_expiration : String
  token_id : String
  token_name : String
  token_type : String
deriving DecidableEq, Repr

/-- `parse_ms_intune_apple_ade_tokens`: keys each record by its
`token_name`; on a name already seen, the key gets the last 4 characters
of `token_id` appended (`f"{token_name} {item['token_id'][-4:]}"`); only
first-occurrence raw names enter the seen set. -/
def parse_ms_intune_apple_ade_tokens (items : List AdeToken) :
    List (String × AdeToken) :=
  (items.foldl
    (fun (acc : List (String × AdeToken) × List String) item =>
      let token_name := item.token_name
      if token_name ∈ acc.2 then
        (dictInsert acc.1 (token_name ++ " " ++ pyLast4 item.token_id) item,
         acc.2)
      else
        (dictInsert acc.1 token_name item, token_name :: acc.2))
    ([], [])).1

/-- The key the parser loop assigns to each record, in order: the raw
`token_name` on first occurrence, the suffixed name on a collision. This
is the key/record stream of the loop of
`parse_ms_intune_apple_ade_tokens`, separated from the dict building. -/
def adeKeyAssign : List AdeToken → List String → List (String × AdeToken)
  | [], _ => []
  | item :: rest, seen =>
      let token_name := item.token_name
      if token_name ∈ seen then
        (token_name ++ " " ++ pyLast4 item.token_id, item)
          :: adeKeyAssign rest seen
      else
        (token_name, item) :: adeKeyAssign rest (token_name :: seen)

/-- The seen-name set of the parser loop after a list of records has been
processed. -/
def seenAfter (items : List AdeToken) (seen : List String) : List String :=
  items.foldl
    (fun s it => if it.token_name ∈ s then s else it.token_name :: s) seen

/-- Shared body of the three expiry checks (`ms_intune_apple_ade_tokens`,
`ms_intune_apple_vpp_tokens`, `ms_intune_apple_mdm_push_cert`): the
`check_levels` call on the remaining validity plus, on expiry, the
explicit zero metric whose `levels` field subscripts the raw parameter
with `[1]` (raising `TypeError` when the parameter is `None`). -/
def expiryOutputs (params_levels : Option LevelsSpec)
    (expiration_timespan : Rat) (metric_name : String) :
    Except PyErr (List CheckOut) :=
  if expiration_timespan > 0 then
    .ok (checkLevelsLower expiration_timespan params_levels
      (some metric_name) "Remaining" (renderTimespan expiration_timespan))
  else
    match params_levels with
    | none => .error .typeErrorNoneSubscript
    | some levels =>
        .ok (checkLevelsLower expiration_timespan params_levels none
            "Expired" (renderTimespan |expiration_timespan| ++ " ago")
          ++ [CheckOut.metric ⟨metric_name, 0, levels.2⟩])

/-- `check_ms_intune_apple_ade_tokens`. `params_token_expiration` is the
result of `params.get("token_expiration")`; `fromiso` models
`datetime.fromisoformat(·).timestamp()` and `now` models
`datetime.now().timestamp()`. -/
def check_ms_intune_apple_ade_tokens (item : String)
    (params_token_expiration : Option LevelsSpec)
    (sect : List (String × AdeToken)) (fromiso : String → Rat) (now : Rat) :
    Except PyErr (List CheckOut) :=
  match dictGet sect item with
  | none => .ok []
  | some token =>
    let token_expiration_timestamp := fromiso token.token_expiration
    let token_expiration_timestamp_render :=
      renderDatetime token_expiration_timestamp
    let token_expiration_timespan := token_expiration_timestamp - now
    let result_details :=
      "Expiration time: " ++ token_expiration_timestamp_render
        ++ "\nToken name: " ++ token.token_name
        ++ "\nToken ID: " ++ token.token_id
        ++ "\nToken type: " ++ token.token_type
        ++ "\nApple ID: " ++ token.token_appleid
    match expiryOutputs params_token_expiration token_expiration_timespan
        "ms_intune_apple_ade_tokens_remaining_validity" with
    | .error e => .error e
    | .ok outs =>
        .ok (outs ++
          [CheckOut.result .OK
            ("Expiration time: " ++ token_expiration_timestamp_render)
            result_details])

/-! ## `intune/agent_based/ms_intune_apple_vpp_tokens.py` -/

/-- The `AppleVppToken` dataclass. -/
structure AppleVppToken where
  token_appleid : String
  token_expiration : String
  token_id : String
  token_name : String
  token_state : String
deriving DecidableEq, Repr

/-- `parse_ms_intune_apple_vpp_tokens`: same loop as the ADE parser. -/
def parse_ms_intune_apple_vpp_tokens (items : List AppleVppToken) :
    List (String × AppleVppToken) :=
  (items.foldl
    (fun (acc : List (String × AppleVppToken) × List String) item =>
      let token_name := item.token_name
      if token_name ∈ acc.2 then
        (dictInsert acc.1 (token_name ++ " " ++ pyLast4 item.token_id) item,
         acc.2)
      else
        (dictInsert acc.1 token_name item, token_name :: acc.2))
    ([], [])).1

/-- `check_ms_intune_apple_vpp_tokens`. -/
def check_ms_intune_apple_vpp_tokens (item : String)
    (params_token_expiration : Option LevelsSpec)
    (sect : List (String × AppleVppToken)) (fromiso : String → Rat)
    (now : Rat) : Except PyErr (List CheckOut) :=
  match dictGet sect item with
  | none => .ok []
  | some token =>
    let token_expiration_timestamp := fromiso token.token_expiration
    let token_expiration_timestamp_render :=
      renderDatetime token_expiration_timestamp
    let token_expiration_timespan := token_expiration_timestamp - now
    let result_details :=
      "Expiration time: " ++ token_expiration_timestamp_render
        ++ "\nToken name: " ++ token.token_name
        ++ "\nToken ID: " ++ token.token_id
        ++ "\nApple ID: " ++ token.token_appleid
        ++ "\nState: " ++ token.token_state
    let result_summary :=
      "Expiration time: " ++ token_expiration_timestamp_render
        ++ ", State: " ++ token.token_state
    match expiryOutputs params_token_expiration token_expiration_timespan
        "ms_intune_apple_vpp_tokens_remaining_validity" with
    | .error e => .error e
    | .ok outs =>
        .ok (outs ++
          [CheckOut.result
            (if token.token_state ≠ "valid" then .CRIT else .OK)
            result_summary result_details])

/-! ## `intune/agent_based/ms_intune_cert_connectors.py` -/

/-- The `CertConnector` dataclass. -/
structure CertConnector where
  connector_connection_last : String
  connector_id : String
  connector_name : String
  connector_state : String
  connector_version : String
deriving DecidableEq, Repr

/-- `parse_ms_intune_cert_connectors`: same loop as the token parsers,
keyed on `connector_name` with `connector_id[-4:]` as suffix. -/
def parse_ms_intune_cert_connectors (items : List CertConnector) :
    List (String × CertConnector) :=
  (items.foldl
    (fun (acc : List (String × CertConnector) × List String) item =>
      let connector_name := item.connector_name
      if connector_name ∈ acc.2 then
        (dictInsert acc.1
          (connector_name ++ " " ++ pyLast4 item.connector_id) item, acc.2)
      else
        (dictInsert acc.1 connector_name item, connector_name :: acc.2))
    ([], [])).1

/-- `check_ms_intune_cert_connectors` (no parameters: the plugin has no
ruleset). -/
def check_ms_intune_cert_connectors (item : String)
    (sect : List (String × CertConnector)) (fromiso : String → Rat) :
    List CheckOut :=
  match dictGet sect item with
  | none => []
  | some connector =>
    let connector_connection_last_timestamp :=
      fromiso connector.connector_connection_last
    let connector_connection_last_timestamp_render :=
      renderDatetime connector_connection_last_timestamp
    let result_summary :=
      "State: " ++ connector.connector_state
        ++ ", Version: " ++ connector.connector_version
    let result_details :=
      "Connector name: " ++ connector.connector_name
        ++ "\nConnector ID: " ++ connector.connector_id
        ++ "\nConnector version: " ++ connector.connector_version
        ++ "\nLast connected: " ++ connector_connection_last_timestamp_render
        ++ "\nState: " ++ connector.connector_state
    [CheckOut.result
      (if connector.connector_state ≠ "active" then .CRIT else .OK)
      result_summary result_details]

/-! ## `intune/agent_based/ms_intune_apple_mdm_push_cert.py` -/

/-- The `ApplePushCert` dataclass (the section is this single record). -/
structure ApplePushCert where
  cert_appleid : String
  cert_expiration : String
deriving DecidableEq, Repr

/-- `check_ms_intune_apple_mdm_push_cert` (singleton section). -/
def check_ms_intune_apple_mdm_push_cert
    (params_cert_expiration : Option LevelsSpec) (sect : ApplePushCert)
    (fromiso : String → Rat) (now : Rat) : Except PyErr (List CheckOut) :=
  let cert := sect
  let cert_expiration_timestamp := fromiso cert.cert_expiration
  let cert_expiration_timestamp_render :=
    renderDatetime cert_expiration_timestamp
  let cert_expiration_timespan := cert_expiration_timestamp - now
  match expiryOutputs params_cert_expiration cert_expiration_timespan
      "ms_intune_apple_mdm_push_cert_remaining_validity" with
  | .error e => .error e
  | .ok outs =>
      .ok (outs ++
        [CheckOut.result .OK
          ("Expiration time: " ++ cert_expiration_timestamp_render)
          ("Expiration time: " ++ cert_expiration_timestamp_render
            ++ "\nApple ID: " ++ cert.cert_appleid)])

/-- The state of the first `Result` in a check's output. -/
def firstResultState : List CheckOut → Option CmkState
  | [] => none
  | CheckOut.result st _ _ :: _ => some st
  | CheckOut.metric _ :: rest => firstResultState rest

/-- The value of the first metric with the given name in a check's
output. -/
def metricValue : List CheckOut → String → Option Rat
  | [], _ => none
  | CheckOut.result _ _ _ :: rest, n => metricValue rest n
  | CheckOut.metric m :: rest, n =>
      if m.name = n then some m.value else metricValue rest n

/-- The summary of the first `Result` in a check's output. -/
def firstResultSummary : List CheckOut → Option String
  | [] => none
  | CheckOut.result _ s _ :: _ => some s
  | CheckOut.metric _ :: rest => firstResultSummary rest

/-- Whether a check invocation completed without raising. -/
def checkCompletes (r : Except PyErr (List CheckOut)) : Bool :=
  match r with
  | .ok _ => true
  | .error _ => false

/-- The state of the first `Result` of a check invocation that completed
(`none` when it raised). -/
def okFirstResultState (r : Except PyErr (List CheckOut)) : Option CmkState :=
  match r with
  | .ok outs => firstResultState outs
  | .error _ => none

/-- The value of the first metric with the given name emitted by a check
invocation that completed (`none` when it raised). -/
def okMetricValue (r : Except PyErr (List CheckOut)) (n : String) :
    Option Rat :=
  match r with
  | .ok outs => metricValue outs n
  | .error _ => none

/-- The elements yielded by a check invocation that completed (`[]` when
it raised). -/
def okOutputs (r : Except PyErr (List CheckOut)) : List CheckOut :=
  match r with
  | .ok outs => outs
  | .error _ => []

/-- The summary of the first `Result` of a check invocation that
completed (`none` when it raised). -/
def okFirstResultSummary (r : Except PyErr (List CheckOut)) :
    Option String :=
  match r with
  | .ok outs => firstResultSummary outs
  | .error _ => none

/-- The last element yielded by a check invocation that completed
(`none` when it raised). -/
def okLastOut (r : Except PyErr (List CheckOut)) : Option CheckOut :=
  match r with
  | .ok outs => outs.getLast?
  | .error _ => none

/-- Building a dict from a stream of key/value pairs, left to right. -/
def buildDict {A : Type} (pairs : List (String × A))
    (m : List (String × A)) : List (String × A) :=
  pairs.foldl (fun m p => dictInsert m p.1 p.2) m

theorem mem_keys_dictInsert {A : Type} (m : List (String × A)) (k a : String)
    (v : A) :
    a ∈ (dictInsert m k v).map Prod.fst ↔ a ∈ m.map Prod.fst ∨ a = k := by
  induction m with
  | nil => simp [dictInsert]
  | cons hd tl ih =>
      obtain ⟨k0, v0⟩ := hd
      by_cases h : k0 = k <;> (simp [dictInsert, h, ih]; tauto)

theorem mem_keys_buildDict_mono {A : Type} (pairs : List (String × A))
    (m : List (String × A)) (a : String) (h : a ∈ m.map Prod.fst) :
    a ∈ (buildDict pairs m).map Prod.fst := by
  induction pairs generalizing m with
  | nil => simpa [buildDict] using h
  | cons hd tl ih =>
      simp only [buildDict, List.foldl_cons]
      exact ih _ ((mem_keys_dictInsert m hd.1 a hd.2).mpr (Or.inl h))

theorem mem_keys_buildDict_of_mem {A : Type} (pairs : List (String × A))
    (m : List (String × A)) (k : String) (v : A) (h : (k, v) ∈ pairs) :
    k ∈ (buildDict pairs m).map Prod.fst := by
  induction pairs generalizing m with
  | nil => simp at h
  | cons hd tl ih =>
      rcases List.mem_cons.mp h with h1 | h2
      · rw [show k = (hd.1 : String) from congrArg Prod.fst h1]
        exact mem_keys_buildDict_mono tl _ hd.1
          ((mem_keys_dictInsert m hd.1 hd.1 hd.2).mpr (Or.inr rfl))
      · exact ih _ h2

theorem mem_seenAfter (items : List AdeToken) (seen : List String)
    (x : String) :
    x ∈ seenAfter items seen ↔
      x ∈ items.map AdeToken.token_name ∨ x ∈ seen := by
  induction items generalizing seen with
  | nil => simp [seenAfter]
  | cons hd tl ih =>
      simp only [seenAfter, List.foldl_cons] at *
      by_cases h : hd.token_name ∈ seen
      · rw [if_pos h, ih]
        simp only [List.map_cons, List.mem_cons]
        constructor
        · tauto
        · rintro (⟨h1 | h1⟩ | h1) <;> try tauto
          subst h1; tauto
      · rw [if_neg h, ih]
        simp only [List.map_cons, List.mem_cons]
        tauto

theorem seenAfter_cons (hd : AdeToken) (tl : List AdeToken)
    (seen : List String) :
    seenAfter (hd :: tl) seen =
      seenAfter tl
        (if hd.token_name ∈ seen then seen else hd.token_name :: seen) := by
  simp only [seenAfter, List.foldl_cons]

theorem adeKeyAssign_append (xs ys : List AdeToken) (seen : List String) :
    adeKeyAssign (xs ++ ys) seen =
      adeKeyAssign xs seen ++ adeKeyAssign ys (seenAfter xs seen) := by
  induction xs generalizing seen with
  | nil => simp [adeKeyAssign, seenAfter]
  | cons hd tl ih =>
      rw [List.cons_append, seenAfter_cons]
      by_cases h : hd.token_name ∈ seen
      · rw [if_pos h]
        simp only [adeKeyAssign, if_pos h]
        rw [ih, List.cons_append]
      · rw [if_neg h]
        simp only [adeKeyAssign, if_neg h]
        rw [ih, List.cons_append]

theorem parse_ade_eq_buildDict_aux (items : List AdeToken)
    (m : List (String × AdeToken)) (seen : List String) :
    (items.foldl
      (fun (acc : List (String × AdeToken) × List String) item =>
        let token_name := item.token_name
        if token_name ∈ acc.2 then
          (dictInsert acc.1 (token_name ++ " " ++ pyLast4 item.token_id) item,
           acc.2)
        else
          (dictInsert acc.1 token_name item, token_name :: acc.2))
      (m, seen)).1 = buildDict (adeKeyAssign items seen) m := by
  induction items generalizing m seen with
  | nil => simp [adeKeyAssign, buildDict]
  | cons hd tl ih =>
      by_cases h : hd.token_name ∈ seen
      · simp only [List.foldl_cons, if_pos h, adeKeyAssign, buildDict,
          List.foldl_cons]
        exact ih _ _
      · simp only [List.foldl_cons, if_neg h, adeKeyAssign, buildDict,
          List.foldl_cons]
        exact ih _ _

theorem parse_ade_eq_buildDict (items : List AdeToken) :
    parse_ms_intune_apple_ade_tokens items =
      buildDict (adeKeyAssign items []) [] := by
  simpa [parse_ms_intune_apple_ade_tokens] using
    parse_ade_eq_buildDict_aux items [] []

/-! ## Claim theorems -/

/-- C1 (counterexample): a record with `app_license_total = 0` makes
`check_ms_intune_app_licenses` raise `ZeroDivisionError` — the consumed
percentage is computed by an unguarded division before any zero handling,
so the check does not complete. -/
theorem C1_app_licenses_zero_total_raises_cex :
    check_ms_intune_app_licenses "App Zero - iOS VPP"
      ⟨("lic_unit_available_lower_pct", ("fixed", some (10, 5))), 1⟩
      [("App Zero - iOS VPP", ⟨"iOS VPP", "App Zero", "Pub", 0, 0, true⟩)]
      = .error .zeroDivisionError := by
  rfl

/-- C1 (amended): for every app-license record whose `app_license_total`
is zero, `check_ms_intune_app_licenses` raises `ZeroDivisionError` from
the consumed-percentage division; the division is not guarded and no
defined value is reported. -/
theorem C1_app_licenses_zero_total_raises (item : String)
    (params : AppParams) (sect : List (String × IntuneApp))
    (license : IntuneApp) (hget : dictGet sect item = some license)
    (htot : license.app_license_total = 0) :
    check_ms_intune_app_licenses item params sect
      = .error .zeroDivisionError := by
  simp only [check_ms_intune_app_licenses, hget, htot, if_pos]

/-- C1 witness. -/
theorem C1_app_licenses_zero_total_raises_witness :
    check_ms_intune_app_licenses "Demo - MS Store"
      ⟨("lic_unit_available_lower_abs", ("fixed", some (20, 10))), 5⟩
      [("Demo - MS Store", ⟨"MS Store", "Demo", "P", 0, 3, false⟩)]
      = .error .zeroDivisionError :=
  C1_app_licenses_zero_total_raises "Demo - MS Store" _ _
    ⟨"MS Store", "Demo", "P", 0, 3, false⟩ (by rfl) rfl

/-- C4 (counterexample): a record with `app_license_total = 0`, strictly
below the default floor `lic_total_min = 1`, does not produce an OK
status: the check raises `ZeroDivisionError` before the floor test is
reached, so no result at all is emitted. -/
theorem C4_app_licenses_below_floor_cex :
    check_ms_intune_app_licenses "Empty - iOS VPP"
      ⟨("lic_unit_available_lower_pct", ("fixed", some (10, 5))), 1⟩
      [("Empty - iOS VPP", ⟨"iOS VPP", "Empty", "Q", 0, 7, true⟩)]
      = .error .zeroDivisionError ∧ (0 : Int) < 1 := by
  exact ⟨rfl, by norm_num⟩

/-- C4 (amended): for every app-license record whose `app_license_total`
is nonzero and strictly below `lic_total_min`, the status emitted by
`check_ms_intune_app_licenses` is OK regardless of the consumed value and
of the configured warning/critical levels. -/
theorem C4_app_licenses_below_floor_ok (item : String) (params : AppParams)
    (sect : List (String × IntuneApp)) (license : IntuneApp)
    (hget : dictGet sect item = some license)
    (htot : license.app_license_total ≠ 0)
    (hfloor : license.app_license_total < params.lic_total_min) :
    checkCompletes (check_ms_intune_app_licenses item params sect) = true ∧
    okFirstResultState (check_ms_intune_app_licenses item params sect)
      = some .OK := by
  have hge : ¬ license.app_license_total ≥ params.lic_total_min := by omega
  constructor <;>
    simp [check_ms_intune_app_licenses, hget, htot, hge, checkCompletes,
      okFirstResultState, firstResultState]

/-- C4 witness. -/
theorem C4_app_licenses_below_floor_ok_witness :
    checkCompletes
      (check_ms_intune_app_licenses "W - T"
        ⟨("lic_unit_available_lower_pct", ("fixed", some (10, 5))), 50⟩
        [("W - T", ⟨"T", "W", "P", 3, 3, true⟩)]) = true ∧
    okFirstResultState
      (check_ms_intune_app_licenses "W - T"
        ⟨("lic_unit_available_lower_pct", ("fixed", some (10, 5))), 50⟩
        [("W - T", ⟨"T", "W", "P", 3, 3, true⟩)]) = some .OK :=
  C4_app_licenses_below_floor_ok "W - T" _ _ ⟨"T", "W", "P", 3, 3, true⟩
    (by rfl) (by norm_num) (by norm_num)

/-- C7: for every app-license record with `app_license_total > 0`, the
check succeeds and emits metrics with available `= total − consumed`,
consumed-percentage `= round(consumed / total × 100, 2)` and, exactly,
`available + consumed = total`. -/
theorem C7_app_licenses_metrics (item : String) (params : AppParams)
    (sect : List (String × IntuneApp)) (license : IntuneApp)
    (hget : dictGet sect item = some license)
    (htot : 0 < license.app_license_total) :
    checkCompletes (check_ms_intune_app_licenses item params sect) = true ∧
    okMetricValue (check_ms_intune_app_licenses item params sect)
        "ms_intune_app_licenses_total"
      = some (license.app_license_total : Rat) ∧
    okMetricValue (check_ms_intune_app_licenses item params sect)
        "ms_intune_app_licenses_consumed"
      = some (license.app_license_consumed : Rat) ∧
    okMetricValue (check_ms_intune_app_licenses item params sect)
        "ms_intune_app_licenses_available"
      = some ((license.app_license_total
          - license.app_license_consumed : Int) : Rat) ∧
    okMetricValue (check_ms_intune_app_licenses item params sect)
        "ms_intune_app_licenses_consumed_pct"
      = some (round2 ((license.app_license_consumed : Rat)
          / (license.app_license_total : Rat) * 100)) ∧
    (license.app_license_total - license.app_license_consumed)
      + license.app_license_consumed = license.app_license_total := by
  have htot' : license.app_license_total ≠ 0 := by omega
  refine ⟨?_, ?_, ?_, ?_, ?_, by ring⟩ <;>
    simp [check_ms_intune_app_licenses, hget, htot', metricValue,
      okMetricValue, checkCompletes]

/-- C7 witness (the spec's end-to-end example: 96 of 100 consumed). -/
theorem C7_app_licenses_metrics_witness :
    checkCompletes
      (check_ms_intune_app_licenses "X - T"
        ⟨("lic_unit_available_lower_pct", ("fixed", some (10, 5))), 1⟩
        [("X - T", ⟨"T", "X", "P", 100, 96, true⟩)]) = true ∧
    okMetricValue
      (check_ms_intune_app_licenses "X - T"
        ⟨("lic_unit_available_lower_pct", ("fixed", some (10, 5))), 1⟩
        [("X - T", ⟨"T", "X", "P", 100, 96, true⟩)])
      "ms_intune_app_licenses_total" = some ((100 : Int) : Rat) ∧
    okMetricValue
      (check_ms_intune_app_licenses "X - T"
        ⟨("lic_unit_available_lower_pct", ("fixed", some (10, 5))), 1⟩
        [("X - T", ⟨"T", "X", "P", 100, 96, true⟩)])
      "ms_intune_app_licenses_consumed" = some ((96 : Int) : Rat) ∧
    okMetricValue
      (check_ms_intune_app_licenses "X - T"
        ⟨("lic_unit_available_lower_pct", ("fixed", some (10, 5))), 1⟩
        [("X - T", ⟨"T", "X", "P", 100, 96, true⟩)])
      "ms_intune_app_licenses_available"
      = some (((100 : Int) - (96 : Int) : Int) : Rat) ∧
    okMetricValue
      (check_ms_intune_app_licenses "X - T"
        ⟨("lic_unit_available_lower_pct", ("fixed", some (10, 5))), 1⟩
        [("X - T", ⟨"T", "X", "P", 100, 96, true⟩)])
      "ms_intune_app_licenses_consumed_pct"
      = some (round2 (((96 : Int) : Rat) / ((100 : Int) : Rat) * 100)) ∧
    ((100 : Int) - 96) + 96 = (100 : Int) :=
  C7_app_licenses_metrics "X - T" _ _ ⟨"T", "X", "P", 100, 96, true⟩
    (by rfl) (by norm_num)

/-- C3: with the total at or above the floor and fixed (warning,
critical) levels, the percentage branch and the absolute branch of
`check_ms_intune_app_licenses` both implement lower-direction semantics
over the derived available value (available < critical ⇒ CRIT, else
available < warning ⇒ WARN, else OK); in particular the absolute branch's
comparison of consumed against (total − warning, total − critical) is
equivalent to comparing available units against (warning, critical). -/
theorem C3_app_licenses_threshold_modes_agree (item : String)
    (params : AppParams) (sect : List (String × IntuneApp))
    (license : IntuneApp) (w c : Rat)
    (hget : dictGet sect item = some license)
    (htot : license.app_license_total ≠ 0)
    (hfloor : license.app_license_total ≥ params.lic_total_min)
    (hlev : (params.lic_unit_available_lower).2.2 = some (w, c)) :
    ((params.lic_unit_available_lower).1 = "lic_unit_available_lower_pct" →
      okFirstResultState (check_ms_intune_app_licenses item params sect)
        = some
          (if ((license.app_license_total
                - license.app_license_consumed : Int) : Rat)
              / (license.app_license_total : Rat) * 100 < c then .CRIT
           else if ((license.app_license_total
                - license.app_license_consumed : Int) : Rat)
              / (license.app_license_total : Rat) * 100 < w then .WARN
           else .OK)) ∧
    ((params.lic_unit_available_lower).1 ≠ "lic_unit_available_lower_pct" →
      okFirstResultState (check_ms_intune_app_licenses item params sect)
        = some
          (if ((license.app_license_total
                - license.app_license_consumed : Int) : Rat) < c then .CRIT
           else if ((license.app_license_total
                - license.app_license_consumed : Int) : Rat) < w then .WARN
           else .OK)) ∧
    (((license.app_license_consumed : Rat)
        > (license.app_license_total : Rat) - c ↔
      ((license.app_license_total
          - license.app_license_consumed : Int) : Rat) < c) ∧
     ((license.app_license_consumed : Rat)
        > (license.app_license_total : Rat) - w ↔
      ((license.app_license_total
          - license.app_license_consumed : Int) : Rat) < w)) := by
  have ec : ((license.app_license_consumed : Rat)
      > (license.app_license_total : Rat) - c ↔
      ((license.app_license_total
          - license.app_license_consumed : Int) : Rat) < c) := by
    push_cast
    constructor <;> intro h <;> linarith
  have ew : ((license.app_license_consumed : Rat)
      > (license.app_license_total : Rat) - w ↔
      ((license.app_license_total
          - license.app_license_consumed : Int) : Rat) < w) := by
    push_cast
    constructor <;> intro h <;> linarith
  have ec2 : ((license.app_license_consumed : Rat)
      > (license.app_license_total : Rat) - c)
      = ((license.app_license_total : Rat)
          - (license.app_license_consumed : Rat) < c) :=
    propext (by constructor <;> intro h <;> linarith)
  have ew2 : ((license.app_license_consumed : Rat)
      > (license.app_license_total : Rat) - w)
      = ((license.app_license_total : Rat)
          - (license.app_license_consumed : Rat) < w) :=
    propext (by constructor <;> intro h <;> linarith)
  refine ⟨?_, ?_, ec, ew⟩
  · intro hm
    simp only [check_ms_intune_app_licenses, hget, htot, hfloor, hlev, hm,
      if_pos, ite_true, if_true, if_neg, ge_iff_le, okFirstResultState]
    rfl
  · intro hm
    simp only [check_ms_intune_app_licenses, hget, htot, hfloor, hlev, hm,
      if_pos, ite_true, if_true, if_neg, if_false, ite_false, ge_iff_le,
      okFirstResultState]
    simp only [ec2, ew2, firstResultState]
    push_cast
    rfl

/-- C3 witness. -/
theorem C3_app_licenses_threshold_modes_agree_witness :
    (("lic_unit_available_lower_pct", (("fixed" : String),
        some ((10 : Rat), (5 : Rat)))).1 = "lic_unit_available_lower_pct" →
      okFirstResultState
        (check_ms_intune_app_licenses "X - T"
          ⟨("lic_unit_available_lower_pct", ("fixed", some (10, 5))), 1⟩
          [("X - T", ⟨"T", "X", "P", 100, 96, true⟩)])
        = some
          (if (((100 : Int) - (96 : Int) : Int) : Rat)
              / ((100 : Int) : Rat) * 100 < (5 : Rat) then .CRIT
           else if (((100 : Int) - (96 : Int) : Int) : Rat)
              / ((100 : Int) : Rat) * 100 < (10 : Rat) then .WARN
           else .OK)) ∧
    (("lic_unit_available_lower_pct", (("fixed" : String),
        some ((10 : Rat), (5 : Rat)))).1 ≠ "lic_unit_available_lower_pct" →
      okFirstResultState
        (check_ms_intune_app_licenses "X - T"
          ⟨("lic_unit_available_lower_pct", ("fixed", some (10, 5))), 1⟩
          [("X - T", ⟨"T", "X", "P", 100, 96, true⟩)])
        = some
          (if (((100 : Int) - (96 : Int) : Int) : Rat) < (5 : Rat) then .CRIT
           else if (((100 : Int) - (96 : Int) : Int) : Rat) < (10 : Rat)
             then .WARN
           else .OK)) ∧
    ((((96 : Int) : Rat) > ((100 : Int) : Rat) - (5 : Rat) ↔
        (((100 : Int) - (96 : Int) : Int) : Rat) < (5 : Rat)) ∧
     (((96 : Int) : Rat) > ((100 : Int) : Rat) - (10 : Rat) ↔
        (((100 : Int) - (96 : Int) : Int) : Rat) < (10 : Rat))) :=
  C3_app_licenses_threshold_modes_agree "X - T"
    ⟨("lic_unit_available_lower_pct", ("fixed", some (10, 5))), 1⟩
    [("X - T", ⟨"T", "X", "P", 100, 96, true⟩)]
    ⟨"T", "X", "P", 100, 96, true⟩ 10 5 (by rfl) (by norm_num)
    (by norm_num) (by rfl)

/-- C2 (counterexample): `parse_ms_intune_app_licenses` performs no
disambiguation — two records sharing the same display name produce one
output key, the second record silently overwriting the first. -/
theorem C2_app_parser_no_disambiguation_cex :
    parse_ms_intune_app_licenses
        [⟨"T", "A", "P1", 5, 1, true⟩, ⟨"T", "A", "P2", 6, 2, false⟩]
      = [("A - T", ⟨"T", "A", "P2", 6, 2, false⟩)] ∧
    (parse_ms_intune_app_licenses
        [⟨"T", "A", "P1", 5, 1, true⟩,
         ⟨"T", "A", "P2", 6, 2, false⟩]).length = 1 := by
  constructor
  · rfl
  · rfl

/-- C2 (amended): for the parsers that track seen names (the ADE/VPP
token and connector parsers; here `parse_ms_intune_apple_ade_tokens`),
when a record `b` shares its display name `N` with an earlier record `a`
whose name was a first occurrence, the loop assigns two distinct keys:
`a` keeps the raw name `N` and `b` gets `N` suffixed with a space and the
last 4 characters of its `token_id`; both keys are keys of the output
mapping. The app-license parser has no such disambiguation (its second
record overwrites the first). -/
theorem C2_token_parser_disambiguates (pre mid post : List AdeToken)
    (a b : AdeToken) (N : String)
    (ha : a.token_name = N) (hb : b.token_name = N)
    (hpre : N ∉ pre.map AdeToken.token_name) :
    (N, a) ∈ adeKeyAssign (pre ++ a :: (mid ++ b :: post)) [] ∧
    (N ++ " " ++ pyLast4 b.token_id, b)
      ∈ adeKeyAssign (pre ++ a :: (mid ++ b :: post)) [] ∧
    N ≠ N ++ " " ++ pyLast4 b.token_id ∧
    N ∈ (parse_ms_intune_apple_ade_tokens
          (pre ++ a :: (mid ++ b :: post))).map Prod.fst ∧
    (N ++ " " ++ pyLast4 b.token_id)
      ∈ (parse_ms_intune_apple_ade_tokens
          (pre ++ a :: (mid ++ b :: post))).map Prod.fst := by
  have hNseen : N ∉ seenAfter pre [] := by
    rw [mem_seenAfter]
    simp [hpre]
  have e2 : adeKeyAssign (a :: (mid ++ b :: post)) (seenAfter pre [])
      = (N, a) :: adeKeyAssign (mid ++ b :: post)
          (N :: seenAfter pre []) := by
    simp only [adeKeyAssign, ha, if_neg hNseen]
  have hNseen2 : N ∈ seenAfter mid (N :: seenAfter pre []) :=
    (mem_seenAfter _ _ _).mpr (Or.inr (List.mem_cons_self _ _))
  have e4 : adeKeyAssign (b :: post)
        (seenAfter mid (N :: seenAfter pre []))
      = (N ++ " " ++ pyLast4 b.token_id, b)
          :: adeKeyAssign post (seenAfter mid (N :: seenAfter pre [])) := by
    simp only [adeKeyAssign, hb, if_pos hNseen2]
  have efull : adeKeyAssign (pre ++ a :: (mid ++ b :: post)) []
      = adeKeyAssign pre []
        ++ (N, a) :: (adeKeyAssign mid (N :: seenAfter pre [])
          ++ (N ++ " " ++ pyLast4 b.token_id, b)
            :: adeKeyAssign post (seenAfter mid (N :: seenAfter pre []))) := by
    rw [adeKeyAssign_append, e2, adeKeyAssign_append, e4]
  have hmema : (N, a) ∈ adeKeyAssign (pre ++ a :: (mid ++ b :: post)) [] := by
    rw [efull]
    simp
  have hmemb : (N ++ " " ++ pyLast4 b.token_id, b)
      ∈ adeKeyAssign (pre ++ a :: (mid ++ b :: post)) [] := by
    rw [efull]
    simp
  have hne : N ≠ N ++ " " ++ pyLast4 b.token_id := by
    intro h
    have hl := congrArg String.length h
    rw [String.length_append, String.length_append] at hl
    have h1 : (" " : String).length = 1 := rfl
    omega
  refine ⟨hmema, hmemb, hne, ?_, ?_⟩
  · rw [parse_ade_eq_buildDict]
    exact mem_keys_buildDict_of_mem _ _ _ _ hmema
  · rw [parse_ade_eq_buildDict]
    exact mem_keys_buildDict_of_mem _ _ _ _ hmemb

/-- C2 witness. -/
theorem C2_token_parser_disambiguates_witness :
    ((("Tok" : String), (⟨"a@x", "e1", "aaaa1111", "Tok", "dep"⟩ : AdeToken))
      ∈ adeKeyAssign
          ([] ++ (⟨"a@x", "e1", "aaaa1111", "Tok", "dep"⟩ : AdeToken)
            :: ([] ++ (⟨"b@x", "e2", "bbbb9999", "Tok", "dep"⟩ : AdeToken)
              :: [])) []) ∧
    ((("Tok" : String) ++ " "
        ++ pyLast4 (⟨"b@x", "e2", "bbbb9999", "Tok", "dep"⟩ : AdeToken).token_id,
      (⟨"b@x", "e2", "bbbb9999", "Tok", "dep"⟩ : AdeToken))
      ∈ adeKeyAssign
          ([] ++ (⟨"a@x", "e1", "aaaa1111", "Tok", "dep"⟩ : AdeToken)
            :: ([] ++ (⟨"b@x", "e2", "bbbb9999", "Tok", "dep"⟩ : AdeToken)
              :: [])) []) ∧
    ("Tok" : String) ≠ ("Tok" : String) ++ " "
        ++ pyLast4 (⟨"b@x", "e2", "bbbb9999", "Tok", "dep"⟩ : AdeToken).token_id ∧
    ("Tok" : String)
      ∈ (parse_ms_intune_apple_ade_tokens
          ([] ++ (⟨"a@x", "e1", "aaaa1111", "Tok", "dep"⟩ : AdeToken)
            :: ([] ++ (⟨"b@x", "e2", "bbbb9999", "Tok", "dep"⟩ : AdeToken)
              :: []))).map Prod.fst ∧
    (("Tok" : String) ++ " "
        ++ pyLast4 (⟨"b@x", "e2", "bbbb9999", "Tok", "dep"⟩ : AdeToken).token_id)
      ∈ (parse_ms_intune_apple_ade_tokens
          ([] ++ (⟨"a@x", "e1", "aaaa1111", "Tok", "dep"⟩ : AdeToken)
            :: ([] ++ (⟨"b@x", "e2", "bbbb9999", "Tok", "dep"⟩ : AdeToken)
              :: []))).map Prod.fst :=
  C2_token_parser_disambiguates [] [] []
    ⟨"a@x", "e1", "aaaa1111", "Tok", "dep"⟩
    ⟨"b@x", "e2", "bbbb9999", "Tok", "dep"⟩ "Tok" rfl rfl (by simp)

/-- C9: the token parsers' disambiguation does not guarantee key
distinctness for all inputs — on this 3-record snapshot sharing one
`token_name`, with the second and third `token_id` ending in the same 4
characters, the second and third records get the same suffixed key and
the third silently overwrites the second, so the parsed mapping has 2
entries for 3 input records. -/
theorem C9_token_parser_collision_loses_records :
    parse_ms_intune_apple_ade_tokens
        [⟨"a@x", "e1", "aaaa1111", "Tok", "dep"⟩,
         ⟨"b@x", "e2", "bbbb9999", "Tok", "dep"⟩,
         ⟨"c@x", "e3", "cccc9999", "Tok", "dep"⟩]
      = [("Tok", ⟨"a@x", "e1", "aaaa1111", "Tok", "dep"⟩),
         ("Tok 9999", ⟨"c@x", "e3", "cccc9999", "Tok", "dep"⟩)] ∧
    (parse_ms_intune_apple_ade_tokens
        [⟨"a@x", "e1", "aaaa1111", "Tok", "dep"⟩,
         ⟨"b@x", "e2", "bbbb9999", "Tok", "dep"⟩,
         ⟨"c@x", "e3", "cccc9999", "Tok", "dep"⟩]).length
      < ([⟨"a@x", "e1", "aaaa1111", "Tok", "dep"⟩,
          ⟨"b@x", "e2", "bbbb9999", "Tok", "dep"⟩,
          ⟨"c@x", "e3", "cccc9999", "Tok", "dep"⟩] : List AdeToken).length := by
  constructor
  · rfl
  · decide

/-- C5: for the three expiry checks (ADE token, VPP token, MDM push
certificate), with remaining = expiration timestamp − current time: when
remaining > 0 the first result uses the "Remaining" framing and the
remaining-validity metric equals remaining; when remaining ≤ 0 the first
result uses the "Expired ... ago" framing and the remaining-validity
metric emitted is exactly 0, never negative. -/
theorem C5_expiry_framing_and_metric (item : String)
    (specA specV specM : LevelsSpec) (sectA : List (String × AdeToken))
    (token : AdeToken) (sectV : List (String × AppleVppToken))
    (vtoken : AppleVppToken) (cert : ApplePushCert)
    (fromiso : String → Rat) (now : Rat)
    (hA : dictGet sectA item = some token)
    (hV : dictGet sectV item = some vtoken) :
    (fromiso token.token_expiration - now > 0 →
      checkCompletes (check_ms_intune_apple_ade_tokens item (some specA)
          sectA fromiso now) = true ∧
      okFirstResultSummary (check_ms_intune_apple_ade_tokens item
          (some specA) sectA fromiso now)
        = some (levelsLowerSummary (fromiso token.token_expiration - now)
            (some specA) "Remaining"
            (renderTimespan (fromiso token.token_expiration - now))) ∧
      okMetricValue (check_ms_intune_apple_ade_tokens item (some specA)
          sectA fromiso now) "ms_intune_apple_ade_tokens_remaining_validity"
        = some (fromiso token.token_expiration - now)) ∧
    (fromiso token.token_expiration - now ≤ 0 →
      checkCompletes (check_ms_intune_apple_ade_tokens item (some specA)
          sectA fromiso now) = true ∧
      okFirstResultSummary (check_ms_intune_apple_ade_tokens item
          (some specA) sectA fromiso now)
        = some (levelsLowerSummary (fromiso token.token_expiration - now)
            (some specA) "Expired"
            (renderTimespan |fromiso token.token_expiration - now|
              ++ " ago")) ∧
      okMetricValue (check_ms_intune_apple_ade_tokens item (some specA)
          sectA fromiso now) "ms_intune_apple_ade_tokens_remaining_validity"
        = some 0) ∧
    (fromiso vtoken.token_expiration - now > 0 →
      checkCompletes (check_ms_intune_apple_vpp_tokens item (some specV)
          sectV fromiso now) = true ∧
      okFirstResultSummary (check_ms_intune_apple_vpp_tokens item
          (some specV) sectV fromiso now)
        = some (levelsLowerSummary (fromiso vtoken.token_expiration - now)
            (some specV) "Remaining"
            (renderTimespan (fromiso vtoken.token_expiration - now))) ∧
      okMetricValue (check_ms_intune_apple_vpp_tokens item (some specV)
          sectV fromiso now) "ms_intune_apple_vpp_tokens_remaining_validity"
        = some (fromiso vtoken.token_expiration - now)) ∧
    (fromiso vtoken.token_expiration - now ≤ 0 →
      checkCompletes (check_ms_intune_apple_vpp_tokens item (some specV)
          sectV fromiso now) = true ∧
      okFirstResultSummary (check_ms_intune_apple_vpp_tokens item
          (some specV) sectV fromiso now)
        = some (levelsLowerSummary (fromiso vtoken.token_expiration - now)
            (some specV) "Expired"
            (renderTimespan |fromiso vtoken.token_expiration - now|
              ++ " ago")) ∧
      okMetricValue (check_ms_intune_apple_vpp_tokens item (some specV)
          sectV fromiso now) "ms_intune_apple_vpp_tokens_remaining_validity"
        = some 0) ∧
    (fromiso cert.cert_expiration - now > 0 →
      checkCompletes (check_ms_intune_apple_mdm_push_cert (some specM)
          cert fromiso now) = true ∧
      okFirstResultSummary (check_ms_intune_apple_mdm_push_cert
          (some specM) cert fromiso now)
        = some (levelsLowerSummary (fromiso cert.cert_expiration - now)
            (some specM) "Remaining"
            (renderTimespan (fromiso cert.cert_expiration - now))) ∧
      okMetricValue (check_ms_intune_apple_mdm_push_cert (some specM)
          cert fromiso now)
          "ms_intune_apple_mdm_push_cert_remaining_validity"
        = some (fromiso cert.cert_expiration - now)) ∧
    (fromiso cert.cert_expiration - now ≤ 0 →
      checkCompletes (check_ms_intune_apple_mdm_push_cert (some specM)
          cert fromiso now) = true ∧
      okFirstResultSummary (check_ms_intune_apple_mdm_push_cert
          (some specM) cert fromiso now)
        = some (levelsLowerSummary (fromiso cert.cert_expiration - now)
            (some specM) "Expired"
            (renderTimespan |fromiso cert.cert_expiration - now|
              ++ " ago")) ∧
      okMetricValue (check_ms_intune_apple_mdm_push_cert (some specM)
          cert fromiso now)
          "ms_intune_apple_mdm_push_cert_remaining_validity"
        = some 0) := by
  refine ⟨?_, ?_, ?_, ?_, ?_, ?_⟩ <;> intro ht
  · simp [check_ms_intune_apple_ade_tokens, hA, expiryOutputs, ht,
      checkLevelsLower, checkCompletes, okFirstResultSummary,
      firstResultSummary, okMetricValue, metricValue]
  · have ht' : ¬ (fromiso token.token_expiration - now > 0) :=
      not_lt.mpr ht
    simp [check_ms_intune_apple_ade_tokens, hA, expiryOutputs, ht',
      checkLevelsLower, checkCompletes, okFirstResultSummary,
      firstResultSummary, okMetricValue, metricValue]
  · simp [check_ms_intune_apple_vpp_tokens, hV, expiryOutputs, ht,
      checkLevelsLower, checkCompletes, okFirstResultSummary,
      firstResultSummary, okMetricValue, metricValue]
  · have ht' : ¬ (fromiso vtoken.token_expiration - now > 0) :=
      not_lt.mpr ht
    simp [check_ms_intune_apple_vpp_tokens, hV, expiryOutputs, ht',
      checkLevelsLower, checkCompletes, okFirstResultSummary,
      firstResultSummary, okMetricValue, metricValue]
  · simp [check_ms_intune_apple_mdm_push_cert, expiryOutputs, ht,
      checkLevelsLower, checkCompletes, okFirstResultSummary,
      firstResultSummary, okMetricValue, metricValue]
  · have ht' : ¬ (fromiso cert.cert_expiration - now > 0) :=
      not_lt.mpr ht
    simp [check_ms_intune_apple_mdm_push_cert, expiryOutputs, ht',
      checkLevelsLower, checkCompletes, okFirstResultSummary,
      firstResultSummary, okMetricValue, metricValue]

/-- C5 witness: one non-expired invocation (remaining 100) and one
expired invocation (remaining −50) of the expiry checks. -/
theorem C5_expiry_framing_and_metric_witness :
    okMetricValue
      (check_ms_intune_apple_ade_tokens "Tok"
        (some ("fixed", some (1209600, 432000)))
        [("Tok", ⟨"a@x", "2030-01-01", "id", "Tok", "dep"⟩)]
        (fun _ => 100) 0) "ms_intune_apple_ade_tokens_remaining_validity"
      = some ((fun _ : String => (100 : Rat)) "2030-01-01" - 0) ∧
    okMetricValue
      (check_ms_intune_apple_ade_tokens "Tok"
        (some ("fixed", some (1209600, 432000)))
        [("Tok", ⟨"a@x", "2030-01-01", "id", "Tok", "dep"⟩)]
        (fun _ => 0) 50) "ms_intune_apple_ade_tokens_remaining_validity"
      = some 0 ∧
    okMetricValue
      (check_ms_intune_apple_vpp_tokens "Tok"
        (some ("fixed", some (1209600, 432000)))
        [("Tok", ⟨"v@x", "2030-01-01", "id", "Tok", "valid"⟩)]
        (fun _ => 0) 50) "ms_intune_apple_vpp_tokens_remaining_validity"
      = some 0 ∧
    okMetricValue
      (check_ms_intune_apple_mdm_push_cert
        (some ("fixed", some (1209600, 432000))) ⟨"c@x", "2030-01-01"⟩
        (fun _ => 0) 50) "ms_intune_apple_mdm_push_cert_remaining_validity"
      = some 0 := by
  refine ⟨?_, ?_, ?_, ?_⟩
  · exact ((C5_expiry_framing_and_metric "Tok" ("fixed", some (1209600, 432000))
      ("fixed", some (1209600, 432000)) ("fixed", some (1209600, 432000))
      [("Tok", ⟨"a@x", "2030-01-01", "id", "Tok", "dep"⟩)]
      ⟨"a@x", "2030-01-01", "id", "Tok", "dep"⟩
      [("Tok", ⟨"v@x", "2030-01-01", "id", "Tok", "valid"⟩)]
      ⟨"v@x", "2030-01-01", "id", "Tok", "valid"⟩ ⟨"c@x", "2030-01-01"⟩
      (fun _ => 100) 0 rfl rfl).1 (by norm_num)).2.2
  · exact ((C5_expiry_framing_and_metric "Tok" ("fixed", some (1209600, 432000))
      ("fixed", some (1209600, 432000)) ("fixed", some (1209600, 432000))
      [("Tok", ⟨"a@x", "2030-01-01", "id", "Tok", "dep"⟩)]
      ⟨"a@x", "2030-01-01", "id", "Tok", "dep"⟩
      [("Tok", ⟨"v@x", "2030-01-01", "id", "Tok", "valid"⟩)]
      ⟨"v@x", "2030-01-01", "id", "Tok", "valid"⟩ ⟨"c@x", "2030-01-01"⟩
      (fun _ => 0) 50 rfl rfl).2.1 (by norm_num)).2.2
  · exact ((C5_expiry_framing_and_metric "Tok" ("fixed", some (1209600, 432000))
      ("fixed", some (1209600, 432000)) ("fixed", some (1209600, 432000))
      [("Tok", ⟨"a@x", "2030-01-01", "id", "Tok", "dep"⟩)]
      ⟨"a@x", "2030-01-01", "id", "Tok", "dep"⟩
      [("Tok", ⟨"v@x", "2030-01-01", "id", "Tok", "valid"⟩)]
      ⟨"v@x", "2030-01-01", "id", "Tok", "valid"⟩ ⟨"c@x", "2030-01-01"⟩
      (fun _ => 0) 50 rfl rfl).2.2.2.1 (by norm_num)).2.2
  · exact ((C5_expiry_framing_and_metric "Tok" ("fixed", some (1209600, 432000))
      ("fixed", some (1209600, 432000)) ("fixed", some (1209600, 432000))
      [("Tok", ⟨"a@x", "2030-01-01", "id", "Tok", "dep"⟩)]
      ⟨"a@x", "2030-01-01", "id", "Tok", "dep"⟩
      [("Tok", ⟨"v@x", "2030-01-01", "id", "Tok", "valid"⟩)]
      ⟨"v@x", "2030-01-01", "id", "Tok", "valid"⟩ ⟨"c@x", "2030-01-01"⟩
      (fun _ => 0) 50 rfl rfl).2.2.2.2.2 (by norm_num)).2.2

/-- C6: the connector check emits exactly one state-based result, CRIT
whenever `connector_state ≠ "active"` and OK when it equals `"active"`,
with no metric and no threshold comparison; the VPP token check's
state-based result (its last yielded element) is CRIT whenever
`token_state ≠ "valid"` and OK when it equals `"valid"`, regardless of
every other field. -/
theorem C6_state_checks_bypass_thresholds (item : String)
    (sectC : List (String × CertConnector)) (connector : CertConnector)
    (specV : LevelsSpec) (sectV : List (String × AppleVppToken))
    (vtoken : AppleVppToken) (fromiso : String → Rat) (now : Rat)
    (hC : dictGet sectC item = some connector)
    (hV : dictGet sectV item = some vtoken) :
    check_ms_intune_cert_connectors item sectC fromiso
      = [CheckOut.result
          (if connector.connector_state ≠ "active" then .CRIT else .OK)
          ("State: " ++ connector.connector_state ++ ", Version: "
            ++ connector.connector_version)
          ("Connector name: " ++ connector.connector_name
            ++ "\nConnector ID: " ++ connector.connector_id
            ++ "\nConnector version: " ++ connector.connector_version
            ++ "\nLast connected: "
            ++ renderDatetime (fromiso connector.connector_connection_last)
            ++ "\nState: " ++ connector.connector_state)] ∧
    (connector.connector_state ≠ "active" →
      firstResultState (check_ms_intune_cert_connectors item sectC fromiso)
        = some .CRIT) ∧
    (connector.connector_state = "active" →
      firstResultState (check_ms_intune_cert_connectors item sectC fromiso)
        = some .OK) ∧
    okLastOut (check_ms_intune_apple_vpp_tokens item (some specV) sectV
        fromiso now)
      = some (CheckOut.result
          (if vtoken.token_state ≠ "valid" then .CRIT else .OK)
          ("Expiration time: "
            ++ renderDatetime (fromiso vtoken.token_expiration)
            ++ ", State: " ++ vtoken.token_state)
          ("Expiration time: "
            ++ renderDatetime (fromiso vtoken.token_expiration)
            ++ "\nToken name: " ++ vtoken.token_name
            ++ "\nToken ID: " ++ vtoken.token_id
            ++ "\nApple ID: " ++ vtoken.token_appleid
            ++ "\nState: " ++ vtoken.token_state)) := by
  refine ⟨?_, ?_, ?_, ?_⟩
  · simp [check_ms_intune_cert_connectors, hC]
  · intro hs
    simp [check_ms_intune_cert_connectors, hC, hs, firstResultState]
  · intro hs
    simp [check_ms_intune_cert_connectors, hC, hs, firstResultState]
  · by_cases hts : fromiso vtoken.token_expiration - now > 0 <;>
      simp [check_ms_intune_apple_vpp_tokens, hV, expiryOutputs, hts,
        checkLevelsLower, okLastOut]

/-- C6 witness. -/
theorem C6_state_checks_bypass_thresholds_witness :
    check_ms_intune_cert_connectors "C"
        [("C", ⟨"2030-01-01", "cid", "C", "inactive", "1.0"⟩)]
        (fun _ => 100)
      = [CheckOut.result
          (if ("inactive" : String) ≠ "active" then .CRIT else .OK)
          ("State: " ++ "inactive" ++ ", Version: " ++ "1.0")
          ("Connector name: " ++ "C" ++ "\nConnector ID: " ++ "cid"
            ++ "\nConnector version: " ++ "1.0" ++ "\nLast connected: "
            ++ renderDatetime ((fun _ : String => (100 : Rat)) "2030-01-01")
            ++ "\nState: " ++ "inactive")] ∧
    (("inactive" : String) ≠ "active" →
      firstResultState
        (check_ms_intune_cert_connectors "C"
          [("C", ⟨"2030-01-01", "cid", "C", "inactive", "1.0"⟩)]
          (fun _ => 100)) = some .CRIT) ∧
    (("inactive" : String) = "active" →
      firstResultState
        (check_ms_intune_cert_connectors "C"
          [("C", ⟨"2030-01-01", "cid", "C", "inactive", "1.0"⟩)]
          (fun _ => 100)) = some .OK) ∧
    okLastOut
      (check_ms_intune_apple_vpp_tokens "C"
        (some ("fixed", some (1209600, 432000)))
        [("C", ⟨"v@x", "2030-01-01", "vid", "C", "invalid"⟩)]
        (fun _ => 100) 0)
      = some (CheckOut.result
          (if ("invalid" : String) ≠ "valid" then .CRIT else .OK)
          ("Expiration time: "
            ++ renderDatetime ((fun _ : String => (100 : Rat)) "2030-01-01")
            ++ ", State: " ++ "invalid")
          ("Expiration time: "
            ++ renderDatetime ((fun _ : String => (100 : Rat)) "2030-01-01")
            ++ "\nToken name: " ++ "C" ++ "\nToken ID: " ++ "vid"
            ++ "\nApple ID: " ++ "v@x" ++ "\nState: " ++ "invalid")) :=
  C6_state_checks_bypass_thresholds "C"
    [("C", ⟨"2030-01-01", "cid", "C", "inactive", "1.0"⟩)]
    ⟨"2030-01-01", "cid", "C", "inactive", "1.0"⟩
    ("fixed", some (1209600, 432000))
    [("C", ⟨"v@x", "2030-01-01", "vid", "C", "invalid"⟩)]
    ⟨"v@x", "2030-01-01", "vid", "C", "invalid"⟩ (fun _ => 100) 0 rfl rfl

/-- C10: with the expiration-levels key present in the parameter mapping
the ADE-token and MDM-push-certificate checks never raise; with the key
absent (`params.get` returning `None`), the expired branch subscripts
`None` with `[1]` and raises `TypeError`, while a non-expired record
still succeeds. -/
theorem C10_expiry_levels_totality (item : String) (spec : LevelsSpec)
    (sectA : List (String × AdeToken)) (token : AdeToken)
    (cert : ApplePushCert) (fromiso : String → Rat) (now : Rat)
    (hA : dictGet sectA item = some token) :
    (∀ sect : List (String × AdeToken),
      checkCompletes (check_ms_intune_apple_ade_tokens item (some spec)
        sect fromiso now) = true) ∧
    (∀ c : ApplePushCert,
      checkCompletes (check_ms_intune_apple_mdm_push_cert (some spec) c
        fromiso now) = true) ∧
    (fromiso token.token_expiration - now ≤ 0 →
      check_ms_intune_apple_ade_tokens item none sectA fromiso now
        = .error .typeErrorNoneSubscript) ∧
    (fromiso token.token_expiration - now > 0 →
      checkCompletes (check_ms_intune_apple_ade_tokens item none sectA
        fromiso now) = true) ∧
    (fromiso cert.cert_expiration - now ≤ 0 →
      check_ms_intune_apple_mdm_push_cert none cert fromiso now
        = .error .typeErrorNoneSubscript) ∧
    (fromiso cert.cert_expiration - now > 0 →
      checkCompletes (check_ms_intune_apple_mdm_push_cert none cert
        fromiso now) = true) := by
  refine ⟨?_, ?_, ?_, ?_, ?_, ?_⟩
  · intro sect
    match hs : dictGet sect item with
    | none => simp [check_ms_intune_apple_ade_tokens, hs, checkCompletes]
    | some tk =>
        by_cases hts : fromiso tk.token_expiration - now > 0 <;>
          simp [check_ms_intune_apple_ade_tokens, hs, expiryOutputs, hts,
            checkLevelsLower, checkCompletes]
  · intro c
    by_cases hts : fromiso c.cert_expiration - now > 0 <;>
      simp [check_ms_intune_apple_mdm_push_cert, expiryOutputs, hts,
        checkLevelsLower, checkCompletes]
  · intro ht
    have ht' : ¬ (fromiso token.token_expiration - now > 0) :=
      not_lt.mpr ht
    simp [check_ms_intune_apple_ade_tokens, hA, expiryOutputs, ht']
  · intro ht
    simp [check_ms_intune_apple_ade_tokens, hA, expiryOutputs, ht,
      checkLevelsLower, checkCompletes]
  · intro ht
    have ht' : ¬ (fromiso cert.cert_expiration - now > 0) :=
      not_lt.mpr ht
    simp [check_ms_intune_apple_mdm_push_cert, expiryOutputs, ht']
  · intro ht
    simp [check_ms_intune_apple_mdm_push_cert, expiryOutputs, ht,
      checkLevelsLower, checkCompletes]

/-- C10 witness: an expired token with the key absent raises; the same
token with the key present completes. -/
theorem C10_expiry_levels_totality_witness :
    checkCompletes
      (check_ms_intune_apple_ade_tokens "Tok"
        (some ("fixed", some (1209600, 432000)))
        [("Tok", ⟨"a@x", "1970-01-01", "id", "Tok", "dep"⟩)]
        (fun _ => 0) 50) = true ∧
    check_ms_intune_apple_ade_tokens "Tok" none
        [("Tok", ⟨"a@x", "1970-01-01", "id", "Tok", "dep"⟩)]
        (fun _ => 0) 50
      = .error .typeErrorNoneSubscript ∧
    check_ms_intune_apple_mdm_push_cert none ⟨"c@x", "1970-01-01"⟩
        (fun _ => 0) 50
      = .error .typeErrorNoneSubscript := by
  have h := C10_expiry_levels_totality "Tok" ("fixed", some (1209600, 432000))
    [("Tok", ⟨"a@x", "1970-01-01", "id", "Tok", "dep"⟩)]
    ⟨"a@x", "1970-01-01", "id", "Tok", "dep"⟩ ⟨"c@x", "1970-01-01"⟩
    (fun _ => 0) 50 rfl
  exact ⟨h.1 _, h.2.2.1 (by norm_num), h.2.2.2.2.1 (by norm_num)⟩

/-- C8: when the requested instance is not a key of the parsed snapshot,
both `check_ms_intune_app_licenses` and
`check_ms_intune_apple_ade_tokens` yield no result at all and do not
raise. -/
theorem C8_vanished_item_yields_nothing (item : String) (params : AppParams)
    (pAde : Option LevelsSpec) (sectA : List (String × IntuneApp))
    (sectB : List (String × AdeToken)) (fromiso : String → Rat) (now : Rat)
    (hA : dictGet sectA item = none) (hB : dictGet sectB item = none) :
    check_ms_intune_app_licenses item params sectA = .ok [] ∧
    check_ms_intune_apple_ade_tokens item pAde sectB fromiso now
      = .ok [] := by
  constructor
  · simp only [check_ms_intune_app_licenses, hA]
  · simp only [check_ms_intune_apple_ade_tokens, hB]

/-- C8 witness. -/
theorem C8_vanished_item_yields_nothing_witness :
    check_ms_intune_app_licenses "Ghost"
      ⟨("lic_unit_available_lower_pct", ("fixed", some (10, 5))), 1⟩ []
      = .ok [] ∧
    check_ms_intune_apple_ade_tokens "Ghost"
      (some ("fixed", some (1209600, 432000))) [] (fun _ => 0) 0 = .ok [] :=
  C8_vanished_item_yields_nothing "Ghost" _ _ [] [] (fun _ => 0) 0 rfl rfl

end MsIntune
